import Mathlib

/-!
# cpp-solnp: the Python entry point and the constraint aggregator

A shallow embedding of `src/pysolver.cpp`:

* `cppsolnp.solve_simple` with the closure `objective_function` it builds
  (the constraint aggregator) and the evaluation counter `function_calls`;
* `pysolver.python_solve` with its validation of the optional arguments.

Conventions of the embedding.

* `double` is a type parameter `R`; the only arithmetic the file performs on
  it is the subtraction of line 103, taken from a `Sub R` instance, so every
  theorem holds for whatever subtraction `double` has.
* `dlib::matrix<double,0,1>` (a column vector) is a `List R`;
  `dlib::matrix<double,0,0>` and `dlib::matrix<double,0,2>` are lists of rows.
* A `std::function` or `std::shared_ptr` that may be null, and a `py::object`
  that may be `None`, is an `Option`.
* User callables are total functions of the point (the signature contract of
  the spec, section 6); what they do besides returning a value is not modelled.
* Exceptions are explicit: a computation returns an `Except Err _` together
  with the state it leaves behind.
* The writes to `std::cout` are not modelled.
* `function_calls` is an `int` in the source; the model counts in `Nat`
  (signed overflow past `INT_MAX` is undefined behaviour in C++ and is outside
  the model).
-/

namespace cppsolnp

/-- The exceptions that cross the functions of `pysolver.cpp`:
`std::invalid_argument` with its message, and any other exception (which only
the solver core can throw). -/
inductive Err where
  | invalid_argument (what : String)
  | other (what : String)
deriving DecidableEq

/-- A `dlib::matrix<double,0,0>` (or `<double,0,2>`), as the list of its rows;
`nr()` is the length of the list. -/
abbrev Matrix (R : Type) := List (List R)

/-- A column vector seen as an `n × 1` matrix expression. -/
def as_matrix {R : Type} (v : List R) : Matrix R :=
  v.map (fun x => [x])

/-- The function `dlib::join_rows(a, b)`: the columns of `b` to the right of
the columns of `a`. dlib requires `a.nr() == b.nr()`; on such arguments this
is the result of dlib. -/
def join_rows {R : Type} (a b : Matrix R) : Matrix R :=
  List.zipWith (fun ra rb => ra ++ rb) a b

/-- The function `dlib::colm(m, c)`: column `c` of `m`. -/
def colm {R : Type} (m : Matrix R) (c : Nat) : List R :=
  m.filterMap (fun row => row[c]?)

/-- The arguments `cppsolnp::solnp` receives from `solve_simple`
(lines 143-152), the closure apart; `logging` says whether `logger` is
non-null. -/
structure SolnpArgs (R : Type) where
  parameter_data : Matrix R
  inequality_limits : Matrix R
  logging : Bool
  rho : R
  maximum_major_iterations : Int
  maximum_minor_iterations : Int
  delta : R
  tolerance : R

/-- What an execution does that a caller can observe, in order: a call of the
objective, equality or inequality function of the user at a point, an invocation
of the aggregator closure by the solver core, and the invocation of the
solver core itself. -/
inductive Event (R : Type) where
  | objective (point : List R)
  | equality (point : List R)
  | inequality (point : List R)
  | aggregator (point : List R)
  | solnp (args : SolnpArgs R)

/-- The mutable state of one solve: the counter `function_calls` of line 65
and the events so far. -/
structure Session (R : Type) where
  function_calls : Nat
  trace : List (Event R)

/-- Appends an event to the trace. -/
def Session.record {R : Type} (s : Session R) (e : Event R) : Session R :=
  { s with trace := s.trace ++ [e] }

/-- The loops of lines 101-105 and 118-122:
`for (row = 0; row < nr; row++) { result(save_to_index) = value(row); save_to_index++; }`
on the pair `(result, save_to_index)`. -/
def store_rows {R : Type} (value : Nat → R) (nr : Nat) (st : List R × Nat) : List R × Nat :=
  (List.range nr).foldl (fun s row => (s.1.set s.2 (value row), s.2 + 1)) st

/-- Message of the exception of lines 96-97. -/
def equality_length_message : String :=
  "Equality function evaluated to a different length than the equality values."

/-- Message of the exception of lines 113-114. -/
def inequality_length_message : String :=
  "Inequality function evaluated to a different length than the inequality bounds."

/-- The closure `objective_function` of `solve_simple` (lines 67-127), the
constraint aggregator, as a function of the captured variables, the point and
the session. The freshly allocated `result` holds `default` in every entry
until it is written. -/
def objective_function {R : Type} [Sub R] [Inhabited R]
    (obj_func : List R → R)
    (eq_func : Option (List R → List R)) (eq_values : Option (List R))
    (ineq_func : Option (List R → List R)) (ineq_data : Option (Matrix R))
    (point : List R) (s0 : Session R) : Except Err (List R) × Session R :=
  let number_of_parameters : Nat :=
    1 + (match eq_func, eq_values with
         | some _, some v => v.length
         | _, _ => 0)
      + (match ineq_func, ineq_data with
         | some _, some d => d.length
         | _, _ => 0)
  let result : List R := List.replicate number_of_parameters default
  let s1 := s0.record (Event.objective point)
  let optimal_function_value := obj_func point
  let result := result.set 0 optimal_function_value
  let save_to_index : Nat := 1
  let after_equality : Except Err (List R × Nat) × Session R :=
    match eq_func, eq_values with
    | some f, some v =>
      let s2 := s1.record (Event.equality point)
      let equality_function_value := f point
      if equality_function_value.length ≠ v.length then
        (Except.error (Err.invalid_argument equality_length_message), s2)
      else
        (Except.ok (store_rows
          (fun row => equality_function_value.getD row default - v.getD row default)
          v.length (result, save_to_index)), s2)
    | _, _ => (Except.ok (result, save_to_index), s1)
  match after_equality with
  | (Except.error e, s) => (Except.error e, s)
  | (Except.ok st, s) =>
    let after_inequality : Except Err (List R × Nat) × Session R :=
      match ineq_func, ineq_data with
      | some g, some d =>
        let s3 := s.record (Event.inequality point)
        let inequality_function_value := g point
        if inequality_function_value.length ≠ d.length then
          (Except.error (Err.invalid_argument inequality_length_message), s3)
        else
          (Except.ok (store_rows
            (fun row => inequality_function_value.getD row default)
            d.length st), s3)
      | _, _ => (Except.ok st, s)
    match after_inequality with
    | (Except.error e, s) => (Except.error e, s)
    | (Except.ok st, s) =>
      (Except.ok st.1, { s with function_calls := s.function_calls + 1 })

/-- Modelled from the spec: the solver core `cppsolnp::solnp`, whose template
is not part of `pysolver.cpp`. It is a parameter of the model, and a core is
any strategy that, step by step, either invokes the closure at a point and
goes on with the vector it returns, or throws, or returns the objective value
together with the final content of `parameter_data` and the entries it
appended to the log. The core reaches `function_calls` and the user callables
only through the closure, and an exception thrown by the closure leaves the
core (spec section 7: a dimension mismatch aborts the solve at its first
occurrence and is not retried). -/
inductive Core (R E : Type) where
  | ret (value : R) (parameter_data : Matrix R) (entries : List E)
  | fail (e : Err)
  | call (point : List R) (next : List R → Core R E)

/-- Runs a solver core against a closure, threading the session: every
invocation of the closure is recorded, and an exception of the closure ends
the run. -/
def Core.run {R E : Type}
    (closure : List R → Session R → Except Err (List R) × Session R) :
    Core R E → Session R → Except Err (R × Matrix R × List E) × Session R
  | Core.ret value parameter_data entries, s => (Except.ok (value, parameter_data, entries), s)
  | Core.fail e, s => (Except.error e, s)
  | Core.call point next, s =>
    match closure point (s.record (Event.aggregator point)) with
    | (Except.ok v, s1) => Core.run closure (next v) s1
    | (Except.error e, s1) => (Except.error e, s1)

/-- The class `SolverResult` as constructed at line 158: the objective value,
the optimum, the evaluation count and the logger (null unless `debug`). -/
structure SolverResult (R E : Type) where
  solve_value : R
  optimum : List R
  callbacks : Nat
  log : Option (List E)

/-- What a call leaves behind: the value returned or the exception thrown,
the number of times `function_calls += 1` (line 125) has been executed, and
the events in order. -/
structure Outcome (R A : Type) where
  result : Except Err A
  function_calls : Nat
  trace : List (Event R)

/-- The arguments of the call of `cppsolnp::solnp` at lines 143-152, with
`inequality_limits` as lines 138-141 set it: a copy of `*ineq_data` when
`ineq_data` is non-null, the empty matrix otherwise. -/
def solnp_arguments {R : Type}
    (parameter_data : Matrix R) (ineq_data : Option (Matrix R))
    (logging : Bool) (rho : R)
    (maximum_major_iterations maximum_minor_iterations : Int)
    (delta tolerance : R) : SolnpArgs R :=
  let inequality_limits : Matrix R :=
    match ineq_data with
    | some d => d
    | none => []
  { parameter_data := parameter_data, inequality_limits := inequality_limits,
    logging := logging, rho := rho,
    maximum_major_iterations := maximum_major_iterations,
    maximum_minor_iterations := maximum_minor_iterations,
    delta := delta, tolerance := tolerance }

/-- The function `cppsolnp::solve_simple` (lines 52-161), with the solver core
as a parameter. The logger is non-null exactly when `debug` is set, and then
holds the entries the core appended. -/
def solve_simple {R E : Type} [Sub R] [Inhabited R]
    (solnp : SolnpArgs R → Core R E)
    (obj_func : List R → R)
    (parameter_data : Matrix R)
    (eq_func : Option (List R → List R)) (eq_values : Option (List R))
    (ineq_func : Option (List R → List R)) (ineq_data : Option (Matrix R))
    (debug : Bool) (rho : R)
    (maximum_major_iterations maximum_minor_iterations : Int)
    (delta tolerance : R) : Outcome R (SolverResult R E) :=
  let function_calls : Nat := 0
  let logging : Bool := debug
  let args := solnp_arguments parameter_data ineq_data logging rho
    maximum_major_iterations maximum_minor_iterations delta tolerance
  match Core.run (objective_function obj_func eq_func eq_values ineq_func ineq_data)
      (solnp args) { function_calls := function_calls, trace := [Event.solnp args] } with
  | (Except.error e, s) =>
    { result := Except.error e, function_calls := s.function_calls, trace := s.trace }
  | (Except.ok (result, final_data, entries), s) =>
    let logger : Option (List E) := if logging then some entries else none
    let final_vector := colm final_data 0
    { result := Except.ok
        { solve_value := result, optimum := final_vector,
          callbacks := s.function_calls, log := logger },
      function_calls := s.function_calls, trace := s.trace }

end cppsolnp

namespace pysolver

open cppsolnp

/-- The class `pysolver::Result` exposed to Python (lines 8-12): its
constructor takes a `double`, an object and an `int`, and its fields are
`solve_value`, `optimum` and `callbacks`. -/
structure Result (R : Type) where
  solve_value : R
  optimum : List R
  callbacks : Nat

/-- The parameters of `python_solve` (lines 188-204), the Python lists already
converted to sequences of numbers; `none` is the `None` of Python. -/
structure SolveArgs (R : Type) where
  obj_func : List R → R
  par_start_value : List R
  par_lower_limit : Option (List R)
  par_upper_limit : Option (List R)
  eq_func : Option (List R → List R)
  eq_values : Option (List R)
  ineq_func : Option (List R → List R)
  ineq_lower_bounds : Option (List R)
  ineq_upper_bounds : Option (List R)
  rho : R
  max_major_iter : Int
  max_minor_iter : Int
  delta : R
  tolerance : R
  debug : Bool

/-- Message of the exception of lines 214-215 (one parameter bound given). -/
def parameter_bounds_message : String :=
  "Bad input: Can not only provide equality or inequaltiy constraints, please provide both."

/-- Message of the exception of lines 229-230. -/
def equality_message : String :=
  "Bad input: Must provide equality function together with equality values or not provide one at all."

/-- Message of the exception of lines 244-245. -/
def inequality_message : String :=
  "Bad input: Must provide inequality function together with upper and lower bounds or not provide one at all."

/-- The wrapper `objective_mapping_function` (lines 167-175): the Python
callable seen as a function of the point. -/
def objective_mapping_function {R : Type} (f : List R → R) : List R → R :=
  fun param => f param

/-- The wrapper `constraint_mapping_function` (lines 177-186). -/
def constraint_mapping_function {R : Type} (f : List R → List R) : List R → List R :=
  fun param => f param

/-- The function `pysolver::python_solve` (lines 188-287), with the solver
core as a parameter. -/
def python_solve {R E : Type} [Sub R] [Inhabited R]
    (solnp : SolnpArgs R → Core R E) (a : SolveArgs R) : Outcome R (Result R) :=
  let bounds : Except Err (Matrix R) :=
    match a.par_lower_limit, a.par_upper_limit with
    | some lower, some upper =>
      Except.ok (join_rows (as_matrix a.par_start_value)
        (join_rows (as_matrix lower) (as_matrix upper)))
    | none, none => Except.ok (as_matrix a.par_start_value)
    | _, _ => Except.error (Err.invalid_argument parameter_bounds_message)
  match bounds with
  | Except.error e => { result := Except.error e, function_calls := 0, trace := [] }
  | Except.ok parameter_data =>
    let equality :
        Except Err (Option (List R → List R) × Option (List R)) :=
      match a.eq_func, a.eq_values with
      | some f, some v => Except.ok (some (constraint_mapping_function f), some v)
      | none, none => Except.ok (none, none)
      | _, _ => Except.error (Err.invalid_argument equality_message)
    match equality with
    | Except.error e => { result := Except.error e, function_calls := 0, trace := [] }
    | Except.ok (equality_function, equality_function_values) =>
      let inequality :
          Except Err (Option (List R → List R) × Option (Matrix R)) :=
        match a.ineq_func, a.ineq_lower_bounds, a.ineq_upper_bounds with
        | some g, some lower, some upper =>
          Except.ok (some (constraint_mapping_function g),
            some (join_rows (as_matrix lower) (as_matrix upper)))
        | none, none, none => Except.ok (none, none)
        | _, _, _ => Except.error (Err.invalid_argument inequality_message)
      match inequality with
      | Except.error e => { result := Except.error e, function_calls := 0, trace := [] }
      | Except.ok (inequality_function, inequality_function_data) =>
        let r := solve_simple solnp (objective_mapping_function a.obj_func) parameter_data
          equality_function equality_function_values
          inequality_function inequality_function_data
          a.debug a.rho a.max_major_iter a.max_minor_iter a.delta a.tolerance
        match r.result with
        | Except.error e =>
          { result := Except.error e, function_calls := r.function_calls, trace := r.trace }
        | Except.ok result =>
          let return_optimum := result.optimum
          { result := Except.ok
              { solve_value := result.solve_value, optimum := return_optimum,
                callbacks := result.callbacks },
            function_calls := r.function_calls, trace := r.trace }

end pysolver

/-! ## Predicates the claims are stated with, and sample inputs -/

namespace cppsolnp

/-- The rows the equality unit adds to `number_of_parameters` (lines 77-79):
the number of equality targets when both `eq_func` and `eq_values` are set,
0 otherwise. -/
def m_eq {R : Type} (eq_func : Option (List R → List R)) (eq_values : Option (List R)) : Nat :=
  match eq_func, eq_values with
  | some _, some v => v.length
  | _, _ => 0

/-- The rows the inequality unit adds to `number_of_parameters` (lines 81-83):
the number of rows of `ineq_data` when both `ineq_func` and `ineq_data` are
set, 0 otherwise. -/
def m_ineq {R : Type} (ineq_func : Option (List R → List R)) (ineq_data : Option (Matrix R)) : Nat :=
  match ineq_func, ineq_data with
  | some _, some d => d.length
  | _, _ => 0

/-- The `DimensionMismatch` of the spec: the `std::invalid_argument` of lines 96-97
or of lines 113-114. -/
def is_dimension_mismatch (e : Err) : Prop :=
  e = Err.invalid_argument equality_length_message ∨
    e = Err.invalid_argument inequality_length_message

/-- The test of line 95 under the guard of line 92: the equality unit is
fully given and `eq_func(point)` has not the length of `eq_values`. -/
def equality_mismatch {R : Type} (eq_func : Option (List R → List R))
    (eq_values : Option (List R)) (point : List R) : Prop :=
  match eq_func, eq_values with
  | some f, some v => (f point).length ≠ v.length
  | _, _ => False

/-- The test of line 112 under the guard of line 109: the inequality unit is
fully given and `ineq_func(point)` has not as many entries as `ineq_data` has
rows. -/
def inequality_mismatch {R : Type} (ineq_func : Option (List R → List R))
    (ineq_data : Option (Matrix R)) (point : List R) : Prop :=
  match ineq_func, ineq_data with
  | some g, some d => (g point).length ≠ d.length
  | _, _ => False

/-- Whether an event is an invocation of the aggregator closure. -/
def Event.is_aggregator {R : Type} : Event R → Bool
  | Event.aggregator _ => true
  | _ => false

/-- The number of invocations of the aggregator closure in a trace. -/
def aggregator_invocations {R : Type} (trace : List (Event R)) : Nat :=
  trace.countP Event.is_aggregator

end cppsolnp

namespace pysolver

open cppsolnp

/-- Exactly one of `par_lower_limit`, `par_upper_limit` is given. -/
def bounds_half_given {R : Type} (a : SolveArgs R) : Bool :=
  a.par_lower_limit.isSome != a.par_upper_limit.isSome

/-- Exactly one of `eq_func`, `eq_values` is given. -/
def equality_half_given {R : Type} (a : SolveArgs R) : Bool :=
  a.eq_func.isSome != a.eq_values.isSome

/-- Some but not all of `ineq_func`, `ineq_lower_bounds`, `ineq_upper_bounds`
are given. -/
def inequality_half_given {R : Type} (a : SolveArgs R) : Bool :=
  (a.ineq_func.isSome || a.ineq_lower_bounds.isSome || a.ineq_upper_bounds.isSome) &&
    !(a.ineq_func.isSome && a.ineq_lower_bounds.isSome && a.ineq_upper_bounds.isSome)

/-- At least one group of optional arguments is given in part only. -/
def half_given {R : Type} (a : SolveArgs R) : Bool :=
  bounds_half_given a || equality_half_given a || inequality_half_given a

/-- The `InvalidConfiguration` of the spec as `python_solve` raises it: the
`std::invalid_argument` of lines 214-215, 229-230 or 244-245. -/
def is_invalid_configuration (e : Err) : Prop :=
  e = Err.invalid_argument parameter_bounds_message ∨
    e = Err.invalid_argument equality_message ∨
    e = Err.invalid_argument inequality_message

/-- A sample objective over the integers: the sum of the coordinates. -/
def sample_objective : List Int → Int :=
  fun x => x.sum

/-- A sample equality function returning two values. -/
def sample_equality : List Int → List Int :=
  fun x => [x.sum, 7]

/-- A sample equality function returning one value only. -/
def short_equality : List Int → List Int :=
  fun x => [x.sum]

/-- A sample inequality function returning one value. -/
def sample_inequality : List Int → List Int :=
  fun x => [2 * x.headD 0]

/-- A sample solver core: it evaluates the closure at `[1, 2]` and at
`[2, 2]`, then returns the sum of the two objective values, a final
`parameter_data` whose first column is `[5, 6]`, and one log entry. -/
def sample_core : SolnpArgs Int → Core Int String :=
  fun _ =>
    Core.call [1, 2] (fun v =>
      Core.call [2, 2] (fun w =>
        Core.ret (v.headD 0 + w.headD 0) [[5, 0, 9], [6, 0, 9]] ["major iteration 1"]))

/-- A call of `python_solve` with no optional group given. -/
def plain_args : SolveArgs Int :=
  { obj_func := sample_objective, par_start_value := [0, 0],
    par_lower_limit := none, par_upper_limit := none,
    eq_func := none, eq_values := none,
    ineq_func := none, ineq_lower_bounds := none, ineq_upper_bounds := none,
    rho := 1, max_major_iter := 10, max_minor_iter := 10,
    delta := 1, tolerance := 1, debug := false }

/-- The call `plain_args` with `debug` set. -/
def debug_args : SolveArgs Int :=
  { plain_args with debug := true }

/-- The call `plain_args` with only `par_lower_limit` given. -/
def lower_only_args : SolveArgs Int :=
  { plain_args with par_lower_limit := some [0, 0] }

/-- The call `plain_args` with every group given and `rho`, `delta` and both
iteration budgets not positive. -/
def nonpositive_args : SolveArgs Int :=
  { plain_args with
    par_lower_limit := some [-9, -9], par_upper_limit := some [9, 9],
    eq_func := some sample_equality, eq_values := some [1, 2],
    ineq_func := some sample_inequality,
    ineq_lower_bounds := some [0], ineq_upper_bounds := some [3],
    rho := 0, max_major_iter := 0, max_minor_iter := -1, delta := -1 }

end pysolver

/-! ## Lemmas on the loops, the closure and the run of the solver core -/

namespace cppsolnp

/-- One more turn of the store loop writes `value nr` at the current index. -/
theorem store_rows_succ {R : Type} (value : Nat → R) (nr : Nat) (st : List R × Nat) :
    store_rows value (nr + 1) st =
      (((store_rows value nr st).1.set (store_rows value nr st).2 (value nr)),
        (store_rows value nr st).2 + 1) := by
  simp [store_rows, List.range_succ, List.foldl_append]

/-- The store loop advances `save_to_index` by the number of rows. -/
theorem store_rows_index {R : Type} (value : Nat → R) (nr : Nat) (st : List R × Nat) :
    (store_rows value nr st).2 = st.2 + nr := by
  induction nr with
  | zero => simp [store_rows]
  | succ n ih => rw [store_rows_succ]; simp [ih]; omega

/-- The store loop keeps the length of `result`. -/
theorem store_rows_length {R : Type} (value : Nat → R) (nr : Nat) (st : List R × Nat) :
    (store_rows value nr st).1.length = st.1.length := by
  induction nr with
  | zero => simp [store_rows]
  | succ n ih => rw [store_rows_succ]; simp [ih]

/-- The entries of `result` after the store loop: row `i - save_to_index` at every
index written, the old entry elsewhere. -/
theorem store_rows_get {R : Type} (value : Nat → R) (nr : Nat) (st : List R × Nat) (i : Nat) :
    (store_rows value nr st).1[i]? =
      if st.2 ≤ i ∧ i < st.2 + nr ∧ i < st.1.length then some (value (i - st.2)) else st.1[i]? := by
  induction nr with
  | zero =>
    have h : ¬ (st.2 ≤ i ∧ i < st.2 + 0 ∧ i < st.1.length) := by omega
    rw [if_neg h]
    simp [store_rows]
  | succ n ih =>
    rw [store_rows_succ]
    simp only [List.getElem?_set, store_rows_index, store_rows_length, ih]
    by_cases h1 : st.2 + n = i
    · subst h1
      by_cases h2 : st.2 + n < st.1.length
      · simp [h2]
      · have h3 : st.1[st.2 + n]? = none := by
          rw [List.getElem?_eq_none_iff]; omega
        simp [h2, h3]
    · simp only [h1, if_false]
      by_cases h2 : st.2 ≤ i ∧ i < st.2 + n ∧ i < st.1.length
      · have h3 : st.2 ≤ i ∧ i < st.2 + (n + 1) ∧ i < st.1.length := by omega
        simp [h2, h3]
      · have h3 : ¬ (st.2 ≤ i ∧ i < st.2 + (n + 1) ∧ i < st.1.length) := by omega
        simp [h2, h3]

/-- The closure on an equality unit of the wrong length: the exception of lines
96-97, after the objective and the equality function have been called. -/
theorem objective_function_equality_error {R : Type} [Sub R] [Inhabited R]
    (obj_func : List R → R)
    (eq_func : Option (List R → List R)) (eq_values : Option (List R))
    (ineq_func : Option (List R → List R)) (ineq_data : Option (Matrix R))
    (point : List R) (s : Session R)
    (h : equality_mismatch eq_func eq_values point) :
    objective_function obj_func eq_func eq_values ineq_func ineq_data point s =
      (Except.error (Err.invalid_argument equality_length_message),
        (s.record (Event.objective point)).record (Event.equality point)) := by
  cases eq_func <;> cases eq_values <;> simp [equality_mismatch] at h
  simp [objective_function, h]

/-- The closure on an inequality unit of the wrong length, the equality unit
being in order: the exception of lines 113-114, the counter untouched. -/
theorem objective_function_inequality_error {R : Type} [Sub R] [Inhabited R]
    (obj_func : List R → R)
    (eq_func : Option (List R → List R)) (eq_values : Option (List R))
    (ineq_func : Option (List R → List R)) (ineq_data : Option (Matrix R))
    (point : List R) (s : Session R)
    (h1 : ¬ equality_mismatch eq_func eq_values point)
    (h2 : inequality_mismatch ineq_func ineq_data point) :
    (objective_function obj_func eq_func eq_values ineq_func ineq_data point s).1 =
        Except.error (Err.invalid_argument inequality_length_message) ∧
      (objective_function obj_func eq_func eq_values ineq_func ineq_data point s).2.function_calls
        = s.function_calls := by
  cases ineq_func <;> cases ineq_data <;> simp [inequality_mismatch] at h2
  cases eq_func <;> cases eq_values <;> simp [equality_mismatch] at h1 <;>
    simp [objective_function, h1, h2, Session.record]

/-- The closure with both units in order returns a vector and counts the call. -/
theorem objective_function_ok {R : Type} [Sub R] [Inhabited R]
    (obj_func : List R → R)
    (eq_func : Option (List R → List R)) (eq_values : Option (List R))
    (ineq_func : Option (List R → List R)) (ineq_data : Option (Matrix R))
    (point : List R) (s : Session R)
    (h1 : ¬ equality_mismatch eq_func eq_values point)
    (h2 : ¬ inequality_mismatch ineq_func ineq_data point) :
    ∃ v, (objective_function obj_func eq_func eq_values ineq_func ineq_data point s).1 =
        Except.ok v ∧
      (objective_function obj_func eq_func eq_values ineq_func ineq_data point s).2.function_calls
        = s.function_calls + 1 := by
  cases ineq_func <;> cases ineq_data <;> simp [inequality_mismatch] at h2 <;>
  cases eq_func <;> cases eq_values <;> simp [equality_mismatch] at h1 <;>
    simp [objective_function, h1, h2, Session.record]

/-- The vector left by the two store loops on a fresh `result`. -/
theorem layout_of_stores {R : Type} [Inhabited R] (o : R) (fe fi : Nat → R) (m k : Nat) :
    let v := (store_rows fi k (store_rows fe m
      ((List.replicate (1 + m + k) default).set 0 o, 1))).1
    v.length = 1 + m + k ∧ v[0]? = some o ∧
      (∀ i, i < m → v[1 + i]? = some (fe i)) ∧
      (∀ j, j < k → v[1 + m + j]? = some (fi j)) := by
  intro v
  refine ⟨?_, ?_, ?_, ?_⟩
  · simp [v, store_rows_length]
  · show (store_rows fi k (store_rows fe m
      ((List.replicate (1 + m + k) default).set 0 o, 1))).1[0]? = some o
    rw [store_rows_get, store_rows_get, store_rows_index, store_rows_length]
    have h1 : ¬ (1 + m ≤ 0 ∧ 0 < 1 + m + k ∧
        0 < ((List.replicate (1 + m + k) (default : R)).set 0 o).length) := by omega
    have h2 : ¬ (1 ≤ 0 ∧ 0 < 1 + m ∧
        0 < ((List.replicate (1 + m + k) (default : R)).set 0 o).length) := by omega
    rw [if_neg h1, if_neg h2, List.getElem?_set]
    simp
  · intro i hi
    show (store_rows fi k (store_rows fe m
      ((List.replicate (1 + m + k) default).set 0 o, 1))).1[1 + i]? = some (fe i)
    rw [store_rows_get, store_rows_get, store_rows_index, store_rows_length]
    have h1 : ¬ (1 + m ≤ 1 + i ∧ 1 + i < 1 + m + k ∧
        1 + i < ((List.replicate (1 + m + k) (default : R)).set 0 o).length) := by omega
    have h2 : (1 ≤ 1 + i ∧ 1 + i < 1 + m ∧
        1 + i < ((List.replicate (1 + m + k) (default : R)).set 0 o).length) := by
      simp; omega
    rw [if_neg h1, if_pos h2]
    simp
  · intro j hj
    show (store_rows fi k (store_rows fe m
      ((List.replicate (1 + m + k) default).set 0 o, 1))).1[1 + m + j]? = some (fi j)
    rw [store_rows_get, store_rows_index, store_rows_length]
    have h1 : (1 + m ≤ 1 + m + j ∧ 1 + m + j < 1 + m + k ∧
        1 + m + j < ((List.replicate (1 + m + k) (default : R)).set 0 o).length) := by
      simp; omega
    rw [if_pos h1]
    simp

/-- Reading below the length gives the entry `getD` reads. -/
theorem getElem?_getD_of_lt {R : Type} (l : List R) (i : Nat) (d : R) (h : i < l.length) :
    l[i]? = some (l.getD i d) := by
  simp [List.getD, List.getElem?_eq_getElem h]

/-- A store loop over zero rows does nothing. -/
theorem store_rows_zero {R : Type} (value : Nat → R) (st : List R × Nat) :
    store_rows value 0 st = st := by
  simp [store_rows]

/-- The vector the closure returns when both units are in order. -/
theorem objective_function_value {R : Type} [Sub R] [Inhabited R]
    (obj_func : List R → R)
    (eq_func : Option (List R → List R)) (eq_values : Option (List R))
    (ineq_func : Option (List R → List R)) (ineq_data : Option (Matrix R))
    (point : List R) (s : Session R)
    (h1 : ¬ equality_mismatch eq_func eq_values point)
    (h2 : ¬ inequality_mismatch ineq_func ineq_data point) :
    (objective_function obj_func eq_func eq_values ineq_func ineq_data point s).1 =
      Except.ok (store_rows
        (fun row => (ineq_func.elim [] (fun g => g point)).getD row default)
        (m_ineq ineq_func ineq_data)
        (store_rows
          (fun row => (eq_func.elim [] (fun f => f point)).getD row default
            - (eq_values.getD []).getD row default)
          (m_eq eq_func eq_values)
          ((List.replicate (1 + m_eq eq_func eq_values + m_ineq ineq_func ineq_data)
            default).set 0 (obj_func point), 1))).1 := by
  cases ineq_func <;> cases ineq_data <;> simp [inequality_mismatch] at h2 <;>
  cases eq_func <;> cases eq_values <;> simp [equality_mismatch] at h1 <;>
    simp [objective_function, h1, h2, m_eq, m_ineq, store_rows_zero]

/-- The counter after a call of the closure, by the outcome of the call. -/
theorem objective_function_count {R : Type} [Sub R] [Inhabited R]
    (obj_func : List R → R)
    (eq_func : Option (List R → List R)) (eq_values : Option (List R))
    (ineq_func : Option (List R → List R)) (ineq_data : Option (Matrix R))
    (point : List R) (s : Session R) :
    (objective_function obj_func eq_func eq_values ineq_func ineq_data point s).2.function_calls =
      match (objective_function obj_func eq_func eq_values ineq_func ineq_data point s).1 with
      | Except.ok _ => s.function_calls + 1
      | Except.error _ => s.function_calls := by
  by_cases h1 : equality_mismatch eq_func eq_values point
  · rw [objective_function_equality_error obj_func eq_func eq_values ineq_func ineq_data
      point s h1]
    simp [Session.record]
  by_cases h2 : inequality_mismatch ineq_func ineq_data point
  · obtain ⟨ha, hb⟩ := objective_function_inequality_error obj_func eq_func eq_values ineq_func
      ineq_data point s h1 h2
    rw [ha, hb]
  obtain ⟨v, hv, hc⟩ := objective_function_ok obj_func eq_func eq_values ineq_func ineq_data
    point s h1 h2
  rw [hv, hc]

/-- The closure only appends events, none of them an invocation of itself. -/
theorem objective_function_trace {R : Type} [Sub R] [Inhabited R]
    (obj_func : List R → R)
    (eq_func : Option (List R → List R)) (eq_values : Option (List R))
    (ineq_func : Option (List R → List R)) (ineq_data : Option (Matrix R))
    (point : List R) (s : Session R) :
    ∃ rest, (objective_function obj_func eq_func eq_values ineq_func ineq_data point s).2.trace
        = s.trace ++ rest ∧ aggregator_invocations rest = 0 := by
  cases ineq_func <;> cases ineq_data <;> cases eq_func <;> cases eq_values <;>
    simp only [objective_function, Session.record]
  all_goals (try split_ifs)
  all_goals (try simp only [List.append_assoc])
  all_goals exact ⟨_, rfl, by simp [aggregator_invocations, Event.is_aggregator]⟩

/-- The invocations of a concatenated trace. -/
theorem aggregator_invocations_append {R : Type} (xs ys : List (Event R)) :
    aggregator_invocations (xs ++ ys) = aggregator_invocations xs + aggregator_invocations ys := by
  simp [aggregator_invocations, List.countP_append]

/-- The run of a solver core only appends events. -/
theorem run_trace {R E : Type} [Sub R] [Inhabited R]
    (obj_func : List R → R)
    (eq_func : Option (List R → List R)) (eq_values : Option (List R))
    (ineq_func : Option (List R → List R)) (ineq_data : Option (Matrix R))
    (c : Core R E) (s : Session R) :
    ∃ rest, (Core.run (objective_function obj_func eq_func eq_values ineq_func ineq_data)
      c s).2.trace = s.trace ++ rest := by
  induction c generalizing s with
  | ret value parameter_data entries => exact ⟨[], by simp [Core.run]⟩
  | fail e => exact ⟨[], by simp [Core.run]⟩
  | call point next ih =>
    obtain ⟨r1, h1, _⟩ := objective_function_trace obj_func eq_func eq_values ineq_func
      ineq_data point (s.record (Event.aggregator point))
    simp only [Core.run]
    cases hc : objective_function obj_func eq_func eq_values ineq_func ineq_data point
      (s.record (Event.aggregator point)) with
    | mk r s1 =>
      rw [hc] at h1
      cases r with
      | error e =>
        refine ⟨[Event.aggregator point] ++ r1, ?_⟩
        simpa [Session.record] using h1
      | ok v =>
        obtain ⟨r2, h2⟩ := ih v s1
        refine ⟨[Event.aggregator point] ++ r1 ++ r2, ?_⟩
        simp only [h2]
        simp only [Session.record] at h1
        simp [h1]

/-- When the run of a solver core returns, the counter has grown by the number
of invocations of the closure. -/
theorem run_count {R E : Type} [Sub R] [Inhabited R]
    (obj_func : List R → R)
    (eq_func : Option (List R → List R)) (eq_values : Option (List R))
    (ineq_func : Option (List R → List R)) (ineq_data : Option (Matrix R))
    (c : Core R E) (s : Session R) (r : R × Matrix R × List E)
    (h : (Core.run (objective_function obj_func eq_func eq_values ineq_func ineq_data)
      c s).1 = Except.ok r) :
    (Core.run (objective_function obj_func eq_func eq_values ineq_func ineq_data)
        c s).2.function_calls + aggregator_invocations s.trace =
      s.function_calls + aggregator_invocations
        (Core.run (objective_function obj_func eq_func eq_values ineq_func ineq_data)
          c s).2.trace := by
  induction c generalizing s with
  | ret value parameter_data entries => simp [Core.run]
  | fail e => simp [Core.run] at h
  | call point next ih =>
    obtain ⟨r1, h1, h0⟩ := objective_function_trace obj_func eq_func eq_values ineq_func
      ineq_data point (s.record (Event.aggregator point))
    have hn := objective_function_count obj_func eq_func eq_values ineq_func
      ineq_data point (s.record (Event.aggregator point))
    simp only [Core.run] at h ⊢
    cases hc : objective_function obj_func eq_func eq_values ineq_func ineq_data point
      (s.record (Event.aggregator point)) with
    | mk r0 s1 =>
      rw [hc] at h1 hn h
      cases r0 with
      | error e => simp at h
      | ok v =>
        simp only at h hn h1 ⊢
        have := ih v s1 h
        rw [h1, aggregator_invocations_append, h0] at this
        simp only [Session.record, aggregator_invocations_append] at this hn
        have h5 : aggregator_invocations [Event.aggregator point] = 1 := by
          simp [aggregator_invocations, Event.is_aggregator]
        have h6 : s1.function_calls = s.function_calls + 1 := hn
        omega

/-- The first event of `solve_simple` is the invocation of the solver core with
the arguments of lines 143-152. -/
theorem solve_simple_trace {R E : Type} [Sub R] [Inhabited R]
    (solnp : SolnpArgs R → Core R E)
    (obj_func : List R → R) (parameter_data : Matrix R)
    (eq_func : Option (List R → List R)) (eq_values : Option (List R))
    (ineq_func : Option (List R → List R)) (ineq_data : Option (Matrix R))
    (debug : Bool) (rho : R) (major minor : Int) (delta tolerance : R) :
    ∃ rest, (solve_simple solnp obj_func parameter_data eq_func eq_values ineq_func ineq_data
        debug rho major minor delta tolerance).trace =
      Event.solnp (solnp_arguments parameter_data ineq_data debug rho major minor delta
          tolerance) :: rest := by
  simp only [solve_simple]
  generalize hargs : solnp_arguments parameter_data ineq_data debug rho major minor delta tolerance = args
  obtain ⟨rest, h⟩ := run_trace obj_func eq_func eq_values ineq_func ineq_data (solnp args)
    { function_calls := 0, trace := [Event.solnp args] }
  cases hc : Core.run (objective_function obj_func eq_func eq_values ineq_func ineq_data)
      (solnp args) { function_calls := 0, trace := [Event.solnp args] } with
  | mk r s1 =>
    rw [hc] at h
    cases r with
    | error e => exact ⟨rest, by simpa using h⟩
    | ok v => exact ⟨rest, by simpa using h⟩

/-- When `solve_simple` returns, `callbacks` is the number of invocations of
the closure. -/
theorem solve_simple_callbacks {R E : Type} [Sub R] [Inhabited R]
    (solnp : SolnpArgs R → Core R E)
    (obj_func : List R → R) (parameter_data : Matrix R)
    (eq_func : Option (List R → List R)) (eq_values : Option (List R))
    (ineq_func : Option (List R → List R)) (ineq_data : Option (Matrix R))
    (debug : Bool) (rho : R) (major minor : Int) (delta tolerance : R)
    (r : SolverResult R E)
    (h : (solve_simple solnp obj_func parameter_data eq_func eq_values ineq_func ineq_data
        debug rho major minor delta tolerance).result = Except.ok r) :
    r.callbacks = aggregator_invocations
        (solve_simple solnp obj_func parameter_data eq_func eq_values ineq_func ineq_data
          debug rho major minor delta tolerance).trace ∧
      r.callbacks = (solve_simple solnp obj_func parameter_data eq_func eq_values ineq_func
        ineq_data debug rho major minor delta tolerance).function_calls := by
  simp only [solve_simple] at h ⊢
  generalize hargs : solnp_arguments parameter_data ineq_data debug rho major minor delta tolerance = args at h ⊢
  cases hc : Core.run (objective_function obj_func eq_func eq_values ineq_func ineq_data)
      (solnp args) { function_calls := 0, trace := [Event.solnp args] } with
  | mk r0 s1 =>
    rw [hc] at h
    cases r0 with
    | error e => simp at h
    | ok v =>
      have hk := run_count obj_func eq_func eq_values ineq_func ineq_data (solnp args)
        { function_calls := 0, trace := [Event.solnp args] } v (by rw [hc])
      rw [hc] at hk
      simp only [aggregator_invocations, Event.is_aggregator] at hk
      simp only [Except.ok.injEq] at h
      subst h
      simp [aggregator_invocations]
      simpa using hk

/-- A vector returned by the closure: both units were in order, and its length. -/
theorem objective_function_ok_value {R : Type} [Sub R] [Inhabited R]
    (obj_func : List R → R)
    (eq_func : Option (List R → List R)) (eq_values : Option (List R))
    (ineq_func : Option (List R → List R)) (ineq_data : Option (Matrix R))
    (point : List R) (s : Session R) (v : List R)
    (h : (objective_function obj_func eq_func eq_values ineq_func ineq_data point s).1
      = Except.ok v) :
    ¬ equality_mismatch eq_func eq_values point ∧
    ¬ inequality_mismatch ineq_func ineq_data point ∧
    v.length = 1 + m_eq eq_func eq_values + m_ineq ineq_func ineq_data := by
  by_cases h1 : equality_mismatch eq_func eq_values point
  · rw [objective_function_equality_error obj_func eq_func eq_values ineq_func ineq_data
      point s h1] at h
    cases h
  by_cases h2 : inequality_mismatch ineq_func ineq_data point
  · rw [(objective_function_inequality_error obj_func eq_func eq_values ineq_func ineq_data
      point s h1 h2).1] at h
    cases h
  rw [objective_function_value obj_func eq_func eq_values ineq_func ineq_data point s h1 h2] at h
  injection h with h
  refine ⟨h1, h2, ?_⟩
  rw [← h, store_rows_length, store_rows_length]
  simp

/-- An equality unit given in part is skipped by the guards of lines 77 and 92. -/
theorem objective_function_skip_equality {R : Type} [Sub R] [Inhabited R]
    (obj_func : List R → R)
    (eq_func : Option (List R → List R)) (eq_values : Option (List R))
    (ineq_func : Option (List R → List R)) (ineq_data : Option (Matrix R))
    (point : List R) (s : Session R) (h : eq_func.isSome ≠ eq_values.isSome) :
    objective_function obj_func eq_func eq_values ineq_func ineq_data point s =
      objective_function obj_func none none ineq_func ineq_data point s := by
  cases eq_func <;> cases eq_values <;> simp at h <;> rfl

/-- An inequality unit given in part is skipped by the guards of lines 81 and
109. -/
theorem objective_function_skip_inequality {R : Type} [Sub R] [Inhabited R]
    (obj_func : List R → R)
    (eq_func : Option (List R → List R)) (eq_values : Option (List R))
    (ineq_func : Option (List R → List R)) (ineq_data : Option (Matrix R))
    (point : List R) (s : Session R) (h : ineq_func.isSome ≠ ineq_data.isSome) :
    objective_function obj_func eq_func eq_values ineq_func ineq_data point s =
      objective_function obj_func eq_func eq_values none none point s := by
  cases ineq_func <;> cases ineq_data <;> simp at h <;> rfl

/-- Without an equality unit the closure never calls an equality function. -/
theorem no_equality_event_added {R : Type} [Sub R] [Inhabited R]
    (obj_func : List R → R)
    (ineq_func : Option (List R → List R)) (ineq_data : Option (Matrix R))
    (point : List R) (s : Session R) (p : List R)
    (h : Event.equality p ∈
      (objective_function obj_func none none ineq_func ineq_data point s).2.trace) :
    Event.equality p ∈ s.trace := by
  cases ineq_func <;> cases ineq_data <;>
    simp only [objective_function, Session.record] at h
  all_goals (try split_ifs at h)
  all_goals simpa using h

/-- Without an inequality unit the closure never calls an inequality function. -/
theorem no_inequality_event_added {R : Type} [Sub R] [Inhabited R]
    (obj_func : List R → R)
    (eq_func : Option (List R → List R)) (eq_values : Option (List R))
    (point : List R) (s : Session R) (p : List R)
    (h : Event.inequality p ∈
      (objective_function obj_func eq_func eq_values none none point s).2.trace) :
    Event.inequality p ∈ s.trace := by
  cases eq_func <;> cases eq_values <;>
    simp only [objective_function, Session.record] at h
  all_goals (try split_ifs at h)
  all_goals simpa using h

end cppsolnp

/-! ## Lemmas on `python_solve` -/

namespace pysolver

open cppsolnp

/-- A group given in part makes `python_solve` throw before anything else
happens. -/
theorem python_solve_rejects {R E : Type} [Sub R] [Inhabited R]
    (solnp : SolnpArgs R → Core R E) (a : SolveArgs R) (h : half_given a = true) :
    ∃ e, is_invalid_configuration e ∧
      python_solve solnp a = { result := Except.error e, function_calls := 0, trace := [] } := by
  obtain ⟨obj, start, lo, hi, ef, ev, gf, gl, gu, rho, mj, mn, delta, tol, dbg⟩ := a
  cases lo <;> cases hi <;> cases ef <;> cases ev <;> cases gf <;> cases gl <;> cases gu <;>
    simp [half_given, bounds_half_given, equality_half_given, inequality_half_given] at h <;>
    simp [python_solve, is_invalid_configuration]

/-- With consistent groups `python_solve` is `solve_simple` followed by the
construction of the `Result`. -/
theorem python_solve_delegates {R E : Type} [Sub R] [Inhabited R]
    (solnp : SolnpArgs R → Core R E) (a : SolveArgs R) (h : half_given a = false) :
    ∃ parameter_data eq_func eq_values ineq_func ineq_data,
      (python_solve solnp a).trace =
        (solve_simple solnp a.obj_func parameter_data eq_func eq_values ineq_func ineq_data
          a.debug a.rho a.max_major_iter a.max_minor_iter a.delta a.tolerance).trace ∧
      (python_solve solnp a).function_calls =
        (solve_simple solnp a.obj_func parameter_data eq_func eq_values ineq_func ineq_data
          a.debug a.rho a.max_major_iter a.max_minor_iter a.delta a.tolerance).function_calls ∧
      (python_solve solnp a).result =
        Except.map
          (fun sr : SolverResult R E =>
            ({ solve_value := sr.solve_value, optimum := sr.optimum,
               callbacks := sr.callbacks } : Result R))
          (solve_simple solnp a.obj_func parameter_data eq_func eq_values ineq_func ineq_data
            a.debug a.rho a.max_major_iter a.max_minor_iter a.delta a.tolerance).result := by
  obtain ⟨obj, start, lo, hi, ef, ev, gf, gl, gu, rho, mj, mn, delta, tol, dbg⟩ := a
  cases lo <;> cases hi <;> cases ef <;> cases ev <;> cases gf <;> cases gl <;> cases gu <;>
    simp [half_given, bounds_half_given, equality_half_given, inequality_half_given] at h <;>
    simp only [python_solve]
  all_goals
    split
    all_goals
      rename_i heq
      refine ⟨_, _, _, _, _, rfl, rfl, ?_⟩
      exact (congrArg (Except.map (fun sr : SolverResult R E =>
        ({ solve_value := sr.solve_value, optimum := sr.optimum,
           callbacks := sr.callbacks } : Result R))) heq).symm

/-- With consistent groups the solver core is invoked with the tuning arguments
as given. -/
theorem python_solve_invokes {R E : Type} [Sub R] [Inhabited R]
    (solnp : SolnpArgs R → Core R E) (a : SolveArgs R) (h : half_given a = false) :
    ∃ args rest, (python_solve solnp a).trace = Event.solnp args :: rest ∧
      args.rho = a.rho ∧ args.delta = a.delta ∧ args.tolerance = a.tolerance ∧
      args.maximum_major_iterations = a.max_major_iter ∧
      args.maximum_minor_iterations = a.max_minor_iter ∧
      args.logging = a.debug := by
  obtain ⟨pd, ef, ev, gf, gd, ht, _, _⟩ := python_solve_delegates solnp a h
  obtain ⟨rest, hr⟩ := solve_simple_trace solnp a.obj_func pd ef ev gf gd a.debug a.rho
    a.max_major_iter a.max_minor_iter a.delta a.tolerance
  exact ⟨_, rest, ht.trans hr, rfl, rfl, rfl, rfl, rfl, rfl⟩

/-- When `python_solve` returns, `callbacks` is the number of invocations of the
closure. -/
theorem python_solve_callbacks {R E : Type} [Sub R] [Inhabited R]
    (solnp : SolnpArgs R → Core R E) (a : SolveArgs R) (r : Result R)
    (h : (python_solve solnp a).result = Except.ok r) :
    r.callbacks = aggregator_invocations (python_solve solnp a).trace ∧
      r.callbacks = (python_solve solnp a).function_calls := by
  cases hg : half_given a with
  | true =>
    obtain ⟨e, _, he⟩ := python_solve_rejects solnp a hg
    rw [he] at h
    cases h
  | false =>
    obtain ⟨pd, ef, ev, gf, gd, ht, hf, hres⟩ := python_solve_delegates solnp a hg
    rw [hres] at h
    cases hs : (solve_simple solnp a.obj_func pd ef ev gf gd a.debug a.rho
        a.max_major_iter a.max_minor_iter a.delta a.tolerance).result with
    | error e => rw [hs] at h; cases h
    | ok sr =>
      rw [hs] at h
      have hc := solve_simple_callbacks solnp a.obj_func pd ef ev gf gd a.debug a.rho
        a.max_major_iter a.max_minor_iter a.delta a.tolerance sr hs
      simp only [Except.map] at h
      injection h with h
      subst h
      rw [ht, hf]
      exact hc

end pysolver

/-! ## The claims -/

namespace cppsolnp

open pysolver

/-- Claim C1. Whenever the aggregator closure of `solve_simple` returns a
vector `v` at a point, `v` has length `1 + m_eq + m_ineq`, entry 0 is
`obj_func(point)`, entry `1 + i` is `eq_func(point)[i] - eq_values[i]` for
every `i < m_eq`, and entry `1 + m_eq + j` is the raw `ineq_func(point)[j]`
for every `j < m_ineq`, no bound subtracted. Here `m_eq` and `m_ineq` are the
numbers of equality targets and of inequality bound rows, 0 for a unit that
is not fully given. -/
theorem aggregator_layout {R : Type} [Sub R] [Inhabited R]
    (obj_func : List R → R)
    (eq_func : Option (List R → List R)) (eq_values : Option (List R))
    (ineq_func : Option (List R → List R)) (ineq_data : Option (Matrix R))
    (point : List R) (s : Session R) (v : List R)
    (h : (objective_function obj_func eq_func eq_values ineq_func ineq_data point s).1
      = Except.ok v) :
    v.length = 1 + m_eq eq_func eq_values + m_ineq ineq_func ineq_data ∧
    v[0]? = some (obj_func point) ∧
    (∀ f t, eq_func = some f → eq_values = some t → ∀ i, i < t.length →
      ∃ a b, (f point)[i]? = some a ∧ t[i]? = some b ∧ v[1 + i]? = some (a - b)) ∧
    (∀ g d, ineq_func = some g → ineq_data = some d → ∀ j, j < d.length →
      ∃ a, (g point)[j]? = some a ∧
        v[1 + m_eq eq_func eq_values + j]? = some a) := by
  by_cases h1 : equality_mismatch eq_func eq_values point
  · rw [objective_function_equality_error obj_func eq_func eq_values ineq_func ineq_data
      point s h1] at h
    cases h
  by_cases h2 : inequality_mismatch ineq_func ineq_data point
  · rw [(objective_function_inequality_error obj_func eq_func eq_values ineq_func ineq_data
      point s h1 h2).1] at h
    cases h
  rw [objective_function_value obj_func eq_func eq_values ineq_func ineq_data point s h1 h2] at h
  injection h with h
  obtain ⟨L1, L2, L3, L4⟩ := layout_of_stores (obj_func point)
    (fun row => (eq_func.elim [] (fun f => f point)).getD row default
      - (eq_values.getD []).getD row default)
    (fun row => (ineq_func.elim [] (fun g => g point)).getD row default)
    (m_eq eq_func eq_values) (m_ineq ineq_func ineq_data)
  rw [h] at L1 L2 L3 L4
  refine ⟨L1, L2, ?_, ?_⟩
  · intro f t hf ht i hi
    subst hf ht
    have hlen : (f point).length = t.length := by
      simpa [equality_mismatch] using h1
    refine ⟨(f point).getD i default, t.getD i default,
      getElem?_getD_of_lt _ _ _ (by omega), getElem?_getD_of_lt _ _ _ hi, ?_⟩
    exact L3 i (by simpa [m_eq] using hi)
  · intro g d hg hd j hj
    subst hg hd
    have hlen : (g point).length = d.length := by
      simpa [inequality_mismatch] using h2
    refine ⟨(g point).getD j default, getElem?_getD_of_lt _ _ _ (by omega), ?_⟩
    exact L4 j (by simpa [m_ineq] using hj)

/-- Witness of C1: with two equality targets and one inequality row, the
closure returns `[3, 2, 5, 2]` at `[1, 2]`. -/
theorem aggregator_layout_witness :
    (objective_function sample_objective (some sample_equality) (some [1, 2])
        (some sample_inequality) (some [[0, 3]]) [1, 2]
        { function_calls := 0, trace := [] }).1 = Except.ok [3, 2, 5, 2] ∧
    ([3, 2, 5, 2] : List Int).length = 4 ∧
    ([3, 2, 5, 2] : List Int)[0]? = some (sample_objective [1, 2]) ∧
    (∃ a b, (sample_equality [1, 2])[1]? = some a ∧ ([1, 2] : List Int)[1]? = some b ∧
      ([3, 2, 5, 2] : List Int)[1 + 1]? = some (a - b)) ∧
    (∃ a, (sample_inequality [1, 2])[0]? = some a ∧
      ([3, 2, 5, 2] : List Int)[1 + 2 + 0]? = some a) :=
  have h := aggregator_layout sample_objective (some sample_equality) (some [1, 2])
    (some sample_inequality) (some [[0, 3]]) [1, 2] { function_calls := 0, trace := [] }
    [3, 2, 5, 2] rfl
  ⟨rfl, h.1, h.2.1, h.2.2.1 sample_equality [1, 2] rfl rfl 1 (by decide),
    h.2.2.2 sample_inequality [[0, 3]] rfl rfl 0 (by decide)⟩

/-- Claim C2. At every point the aggregator closure fails with a
dimension-mismatch error exactly when the equality unit is fully given and
`eq_func(point)` has not the length of `eq_values`, or the inequality unit is
fully given and `ineq_func(point)` has not as many entries as `ineq_data` has
rows; in every other case it returns a vector. -/
theorem aggregator_fails_iff {R : Type} [Sub R] [Inhabited R]
    (obj_func : List R → R)
    (eq_func : Option (List R → List R)) (eq_values : Option (List R))
    (ineq_func : Option (List R → List R)) (ineq_data : Option (Matrix R))
    (point : List R) (s : Session R) :
    ((∃ e, is_dimension_mismatch e ∧
        (objective_function obj_func eq_func eq_values ineq_func ineq_data point s).1
          = Except.error e) ↔
      (equality_mismatch eq_func eq_values point ∨
        inequality_mismatch ineq_func ineq_data point)) ∧
    (¬ (equality_mismatch eq_func eq_values point ∨
        inequality_mismatch ineq_func ineq_data point) →
      ∃ v, (objective_function obj_func eq_func eq_values ineq_func ineq_data point s).1
        = Except.ok v) := by
  by_cases h1 : equality_mismatch eq_func eq_values point
  · have h := objective_function_equality_error obj_func eq_func eq_values ineq_func ineq_data
      point s h1
    refine ⟨⟨fun _ => Or.inl h1, fun _ => ⟨_, Or.inl rfl, by rw [h]⟩⟩, fun hn => ?_⟩
    exact absurd (Or.inl h1) hn
  by_cases h2 : inequality_mismatch ineq_func ineq_data point
  · have h := (objective_function_inequality_error obj_func eq_func eq_values ineq_func
      ineq_data point s h1 h2).1
    refine ⟨⟨fun _ => Or.inr h2, fun _ => ⟨_, Or.inr rfl, h⟩⟩, fun hn => ?_⟩
    exact absurd (Or.inr h2) hn
  obtain ⟨v, hv, _⟩ := objective_function_ok obj_func eq_func eq_values ineq_func ineq_data
    point s h1 h2
  refine ⟨⟨fun ⟨e, _, he⟩ => ?_, fun h => ?_⟩, fun _ => ⟨v, hv⟩⟩
  · rw [hv] at he
    cases he
  · rcases h with h | h
    · exact absurd h h1
    · exact absurd h h2

/-- Claim C5, the counterexample: a call of the closure that throws (one
equality value for two targets) leaves `function_calls` at 0, it does not
raise it to 1. -/
theorem failed_call_not_counted :
    (objective_function sample_objective (some short_equality) (some [1, 2]) none none [1, 2]
        { function_calls := 0, trace := [] }).1 =
      Except.error (Err.invalid_argument equality_length_message) ∧
    (objective_function sample_objective (some short_equality) (some [1, 2]) none none [1, 2]
        { function_calls := 0, trace := [] }).2.function_calls = 0 ∧
    (objective_function sample_objective (some short_equality) (some [1, 2]) none none [1, 2]
        { function_calls := 0, trace := [] }).2.function_calls ≠ 0 + 1 :=
  ⟨rfl, rfl, by decide⟩

/-- Claim C5, amended. Every call of the aggregator closure that returns a
vector raises `function_calls` by exactly one, at every point and for every
configuration of the constraint units; a call that throws leaves
`function_calls` as it was. -/
theorem returning_call_counted {R : Type} [Sub R] [Inhabited R]
    (obj_func : List R → R)
    (eq_func : Option (List R → List R)) (eq_values : Option (List R))
    (ineq_func : Option (List R → List R)) (ineq_data : Option (Matrix R))
    (point : List R) (s : Session R) :
    (∀ v, (objective_function obj_func eq_func eq_values ineq_func ineq_data point s).1
        = Except.ok v →
      (objective_function obj_func eq_func eq_values ineq_func ineq_data point
        s).2.function_calls = s.function_calls + 1) ∧
    (∀ e, (objective_function obj_func eq_func eq_values ineq_func ineq_data point s).1
        = Except.error e →
      (objective_function obj_func eq_func eq_values ineq_func ineq_data point
        s).2.function_calls = s.function_calls) := by
  have h := objective_function_count obj_func eq_func eq_values ineq_func ineq_data point s
  constructor
  · intro v hv
    rw [hv] at h
    exact h
  · intro e he
    rw [he] at h
    exact h

/-- Witness of the amended C5: a returning call takes the counter from 4 to
5. -/
theorem returning_call_counted_witness :
    (objective_function sample_objective (some sample_equality) (some [1, 2]) none none [1, 2]
        { function_calls := 4, trace := [] }).2.function_calls = 4 + 1 :=
  (returning_call_counted sample_objective (some sample_equality) (some [1, 2]) none none [1, 2]
    { function_calls := 4, trace := [] }).1 [3, 2, 5] rfl

/-- Claim C10, the counterexample: `eq_func` is set and `eq_values` is null,
the inequality unit is fully given with two bound rows, and `ineq_func`
returns one value; the closure does not succeed at `[1, 2]`, it throws the
exception of lines 113-114. -/
theorem half_given_unit_other_unit_fails :
    (some sample_equality).isSome ≠ (none : Option (List Int)).isSome ∧
    (objective_function sample_objective (some sample_equality) none
        (some sample_inequality) (some [[0, 3], [0, 4]]) [1, 2]
        { function_calls := 0, trace := [] }).1 =
      Except.error (Err.invalid_argument inequality_length_message) ∧
    ¬ ∃ v, (objective_function sample_objective (some sample_equality) none
        (some sample_inequality) (some [[0, 3], [0, 4]]) [1, 2]
        { function_calls := 0, trace := [] }).1 = Except.ok v :=
  ⟨by decide, rfl, fun ⟨_, h⟩ => by cases h⟩

/-- Claim C10, amended. When `solve_simple` is called with a constraint unit
given in part only (`eq_func` without `eq_values` or the reverse; `ineq_func`
without `ineq_data` or the reverse), nothing is rejected: at every point the
closure behaves as if the unit were absent, so it never calls that constraint
function and the unit adds no entry to the returned vector (the length counts
fully given units only). The call returns a vector unless the other unit is
fully given and its function returns the wrong length, in which case the
dimension-mismatch exception of that other unit is thrown. The solver core is
invoked all the same, and `inequality_limits` is `*ineq_data` whenever
`ineq_data` is non-null, whether or not `ineq_func` is set. -/
theorem half_given_unit_ignored {R E : Type} [Sub R] [Inhabited R]
    (solnp : SolnpArgs R → Core R E)
    (obj_func : List R → R) (parameter_data : Matrix R)
    (eq_func : Option (List R → List R)) (eq_values : Option (List R))
    (ineq_func : Option (List R → List R)) (ineq_data : Option (Matrix R))
    (debug : Bool) (rho : R) (major minor : Int) (delta tolerance : R)
    (point : List R) (s : Session R) :
    (eq_func.isSome ≠ eq_values.isSome →
      objective_function obj_func eq_func eq_values ineq_func ineq_data point s =
        objective_function obj_func none none ineq_func ineq_data point s ∧
      (∀ p, Event.equality p ∈
          (objective_function obj_func eq_func eq_values ineq_func ineq_data point s).2.trace →
        Event.equality p ∈ s.trace) ∧
      (∀ v, (objective_function obj_func eq_func eq_values ineq_func ineq_data point s).1
          = Except.ok v → v.length = 1 + m_ineq ineq_func ineq_data) ∧
      (¬ inequality_mismatch ineq_func ineq_data point →
        ∃ v, (objective_function obj_func eq_func eq_values ineq_func ineq_data point s).1
          = Except.ok v) ∧
      (inequality_mismatch ineq_func ineq_data point →
        (objective_function obj_func eq_func eq_values ineq_func ineq_data point s).1
          = Except.error (Err.invalid_argument inequality_length_message))) ∧
    (ineq_func.isSome ≠ ineq_data.isSome →
      objective_function obj_func eq_func eq_values ineq_func ineq_data point s =
        objective_function obj_func eq_func eq_values none none point s ∧
      (∀ p, Event.inequality p ∈
          (objective_function obj_func eq_func eq_values ineq_func ineq_data point s).2.trace →
        Event.inequality p ∈ s.trace) ∧
      (∀ v, (objective_function obj_func eq_func eq_values ineq_func ineq_data point s).1
          = Except.ok v → v.length = 1 + m_eq eq_func eq_values) ∧
      (¬ equality_mismatch eq_func eq_values point →
        ∃ v, (objective_function obj_func eq_func eq_values ineq_func ineq_data point s).1
          = Except.ok v) ∧
      (equality_mismatch eq_func eq_values point →
        (objective_function obj_func eq_func eq_values ineq_func ineq_data point s).1
          = Except.error (Err.invalid_argument equality_length_message))) ∧
    (∃ rest, (solve_simple solnp obj_func parameter_data eq_func eq_values ineq_func ineq_data
        debug rho major minor delta tolerance).trace =
      Event.solnp (solnp_arguments parameter_data ineq_data debug rho major minor delta
        tolerance) :: rest) ∧
    (∀ d, ineq_data = some d →
      (solnp_arguments parameter_data ineq_data debug rho major minor delta
        tolerance).inequality_limits = d) := by
  refine ⟨fun h => ?_, fun h => ?_, ?_, ?_⟩
  · have hskip := objective_function_skip_equality obj_func eq_func eq_values ineq_func
      ineq_data point s h
    have hm : m_eq eq_func eq_values = 0 := by
      cases eq_func <;> cases eq_values <;> simp at h <;> rfl
    have hq : ¬ equality_mismatch eq_func eq_values point := by
      cases eq_func <;> cases eq_values <;> simp at h <;> simp [equality_mismatch]
    refine ⟨hskip, fun p hp => ?_, fun v hv => ?_, fun hn => ?_, fun hy => ?_⟩
    · rw [hskip] at hp
      exact no_equality_event_added obj_func ineq_func ineq_data point s p hp
    · have hl := (objective_function_ok_value obj_func eq_func eq_values ineq_func ineq_data
        point s v hv).2.2
      omega
    · obtain ⟨v, hv, _⟩ := objective_function_ok obj_func eq_func eq_values ineq_func
        ineq_data point s hq hn
      exact ⟨v, hv⟩
    · exact (objective_function_inequality_error obj_func eq_func eq_values ineq_func
        ineq_data point s hq hy).1
  · have hskip := objective_function_skip_inequality obj_func eq_func eq_values ineq_func
      ineq_data point s h
    have hm : m_ineq ineq_func ineq_data = 0 := by
      cases ineq_func <;> cases ineq_data <;> simp at h <;> rfl
    have hq : ¬ inequality_mismatch ineq_func ineq_data point := by
      cases ineq_func <;> cases ineq_data <;> simp at h <;> simp [inequality_mismatch]
    refine ⟨hskip, fun p hp => ?_, fun v hv => ?_, fun hn => ?_, fun hy => ?_⟩
    · rw [hskip] at hp
      exact no_inequality_event_added obj_func eq_func eq_values point s p hp
    · have hl := (objective_function_ok_value obj_func eq_func eq_values ineq_func ineq_data
        point s v hv).2.2
      omega
    · obtain ⟨v, hv, _⟩ := objective_function_ok obj_func eq_func eq_values ineq_func
        ineq_data point s hn hq
      exact ⟨v, hv⟩
    · rw [objective_function_equality_error obj_func eq_func eq_values ineq_func
        ineq_data point s hy]
  · exact solve_simple_trace solnp obj_func parameter_data eq_func eq_values ineq_func
      ineq_data debug rho major minor delta tolerance
  · intro d hd
    subst hd
    rfl

/-- Witness of the amended C10: `eq_values` without `eq_func` and `ineq_data`
without `ineq_func`; the closure returns the objective value alone, and the
bounds `[[0, 3]]` still reach the solver core. -/
theorem half_given_unit_ignored_witness :
    (objective_function sample_objective none (some [1, 2]) none (some [[0, 3]]) [1, 2]
        { function_calls := 0, trace := [] } =
      objective_function sample_objective none none none (some [[0, 3]]) [1, 2]
        { function_calls := 0, trace := [] }) ∧
    (objective_function sample_objective none (some [1, 2]) none (some [[0, 3]]) [1, 2]
        { function_calls := 0, trace := [] } =
      objective_function sample_objective none (some [1, 2]) none none [1, 2]
        { function_calls := 0, trace := [] }) ∧
    (objective_function sample_objective none (some [1, 2]) none (some [[0, 3]]) [1, 2]
        { function_calls := 0, trace := [] }).1 = Except.ok [3] ∧
    (solnp_arguments (as_matrix [0, 0]) (some [[0, 3]]) false (1 : Int) 10 10 1
        1).inequality_limits = [[0, 3]] :=
  ⟨((half_given_unit_ignored sample_core sample_objective (as_matrix [0, 0]) none
      (some [1, 2]) none (some [[0, 3]]) false 1 10 10 1 1 [1, 2]
      { function_calls := 0, trace := [] }).1 (by decide)).1,
    ((half_given_unit_ignored sample_core sample_objective (as_matrix [0, 0]) none
      (some [1, 2]) none (some [[0, 3]]) false 1 10 10 1 1 [1, 2]
      { function_calls := 0, trace := [] }).2.1 (by decide)).1,
    rfl,
    (half_given_unit_ignored sample_core sample_objective (as_matrix [0, 0]) none
      (some [1, 2]) none (some [[0, 3]]) false 1 10 10 1 1 [1, 2]
      { function_calls := 0, trace := [] }).2.2.2 [[0, 3]] rfl⟩

end cppsolnp

namespace pysolver

open cppsolnp

/-- Witness of C2: one equality value for two targets makes the closure fail
with a dimension-mismatch error, and two values for two targets make it
return a vector. -/
theorem aggregator_fails_iff_witness :
    (∃ e, is_dimension_mismatch e ∧
      (objective_function sample_objective (some short_equality) (some [1, 2]) none none [1, 2]
        { function_calls := 0, trace := [] }).1 = Except.error e) ∧
    (∃ v, (objective_function sample_objective (some sample_equality) (some [1, 2]) none none
        [1, 2] { function_calls := 0, trace := [] }).1 = Except.ok v) :=
  ⟨(aggregator_fails_iff sample_objective (some short_equality) (some [1, 2]) none none [1, 2]
      { function_calls := 0, trace := [] }).1.2
      (Or.inl (by simp [equality_mismatch, short_equality])),
    (aggregator_fails_iff sample_objective (some sample_equality) (some [1, 2]) none none [1, 2]
      { function_calls := 0, trace := [] }).2
      (by simp [equality_mismatch, inequality_mismatch, sample_equality])⟩

/-- Claim C3. The validation of `python_solve` raises an invalid-configuration
error, before the solver is invoked, exactly when at least one group of
optional arguments is given in part only: one of `par_lower_limit`,
`par_upper_limit`; one of `eq_func`, `eq_values`; or some but not all of
`ineq_func`, `ineq_lower_bounds`, `ineq_upper_bounds`. When every group is
all given or all absent, the validation passes and the solver core is
invoked. -/
theorem python_solve_validation {R E : Type} [Sub R] [Inhabited R]
    (solnp : SolnpArgs R → Core R E) (a : SolveArgs R) :
    ((∃ e, is_invalid_configuration e ∧
        (python_solve solnp a).result = Except.error e ∧
        (python_solve solnp a).trace = []) ↔ half_given a = true) ∧
    (half_given a = false →
      ∃ args rest, (python_solve solnp a).trace = Event.solnp args :: rest) := by
  cases hg : half_given a with
  | true =>
    obtain ⟨e, he, heq⟩ := python_solve_rejects solnp a hg
    refine ⟨⟨fun _ => rfl, fun _ => ⟨e, he, by rw [heq], by rw [heq]⟩⟩, fun h => ?_⟩
    cases h
  | false =>
    obtain ⟨args, rest, ht, _⟩ := python_solve_invokes solnp a hg
    refine ⟨⟨fun ⟨e, _, _, htr⟩ => ?_, fun h => ?_⟩, fun _ => ⟨args, rest, ht⟩⟩
    · rw [ht] at htr
      cases htr
    · cases h

/-- Witness of C3: with only `par_lower_limit` given the validation raises,
and with no optional argument the solver core is invoked. -/
theorem python_solve_validation_witness :
    (∃ e, is_invalid_configuration e ∧
      (python_solve sample_core lower_only_args).result = Except.error e ∧
      (python_solve sample_core lower_only_args).trace = []) ∧
    (∃ args rest, (python_solve sample_core plain_args).trace = Event.solnp args :: rest) :=
  ⟨(python_solve_validation sample_core lower_only_args).1.2 (by decide),
    (python_solve_validation sample_core plain_args).2 (by decide)⟩

/-- Claim C4. Whenever a parameter-bound pair, equality pair or inequality
triple is given in part only, `python_solve` raises its invalid-configuration
error before any evaluation: the trace is empty, so the objective, the
equality function and the inequality function have been called zero times and
the closure has never been invoked, and the evaluation count is 0. -/
theorem python_solve_rejects_before_evaluation {R E : Type} [Sub R] [Inhabited R]
    (solnp : SolnpArgs R → Core R E) (a : SolveArgs R) (h : half_given a = true) :
    ∃ e, is_invalid_configuration e ∧
      (python_solve solnp a).result = Except.error e ∧
      (python_solve solnp a).function_calls = 0 ∧
      (python_solve solnp a).trace = [] := by
  obtain ⟨e, he, heq⟩ := python_solve_rejects solnp a h
  exact ⟨e, he, by rw [heq], by rw [heq], by rw [heq]⟩

/-- Witness of C4: the call with only `par_lower_limit` given. -/
theorem python_solve_rejects_before_evaluation_witness :
    half_given lower_only_args = true ∧
    ∃ e, is_invalid_configuration e ∧
      (python_solve sample_core lower_only_args).result = Except.error e ∧
      (python_solve sample_core lower_only_args).function_calls = 0 ∧
      (python_solve sample_core lower_only_args).trace = [] :=
  ⟨by decide, python_solve_rejects_before_evaluation sample_core lower_only_args (by decide)⟩

/-- Claim C6. For every call of `python_solve` that returns, the evaluation
count of the returned `Result` (the `callbacks` of the `SolverResult` of
`solve_simple`, copied) equals the number of invocations of the aggregator
closure made by the solver core during that solve, the counter starting at 0
when the solve starts. -/
theorem evaluation_count_matches {R E : Type} [Sub R] [Inhabited R]
    (solnp : SolnpArgs R → Core R E) (a : SolveArgs R) (r : Result R)
    (h : (python_solve solnp a).result = Except.ok r) :
    r.callbacks = aggregator_invocations (python_solve solnp a).trace ∧
      r.callbacks = (python_solve solnp a).function_calls :=
  python_solve_callbacks solnp a r h

/-- Witness of C6: the sample core invokes the closure twice and the result
reports 2. -/
theorem evaluation_count_matches_witness :
    (python_solve sample_core plain_args).result =
      Except.ok { solve_value := 7, optimum := [5, 6], callbacks := 2 } ∧
    (2 = aggregator_invocations (python_solve sample_core plain_args).trace ∧
      2 = (python_solve sample_core plain_args).function_calls) :=
  ⟨rfl, evaluation_count_matches sample_core plain_args
    { solve_value := 7, optimum := [5, 6], callbacks := 2 } rfl⟩

/-- Claim C7, the counterexample: with `delta`, `rho` and both iteration
budgets not positive, `python_solve` raises nothing: it invokes the solver
core with these very values, the objective is evaluated, and the call
returns. -/
theorem nonpositive_tuning_reaches_core :
    (nonpositive_args.delta ≤ 0 ∧ nonpositive_args.rho ≤ 0 ∧
      nonpositive_args.max_major_iter ≤ 0 ∧ nonpositive_args.max_minor_iter ≤ 0) ∧
    (python_solve sample_core nonpositive_args).trace.head? = some (Event.solnp
      { parameter_data := [[0, -9, 9], [0, -9, 9]], inequality_limits := [[0, 3]],
        logging := false, rho := 0, maximum_major_iterations := 0,
        maximum_minor_iterations := -1, delta := -1, tolerance := 1 }) ∧
    (python_solve sample_core nonpositive_args).result =
      Except.ok { solve_value := 7, optimum := [5, 6], callbacks := 2 } :=
  ⟨by decide, rfl, rfl⟩

/-- Claim C7, amended. Neither `python_solve` nor `solve_simple` checks
`delta`, `rho`, `max_major_iter` or `max_minor_iter`: whatever their values,
when every optional group is all given or all absent the entry point invokes
the solver core, and passes it exactly these values. -/
theorem tuning_forwarded_unchecked {R E : Type} [Sub R] [Inhabited R]
    (solnp : SolnpArgs R → Core R E) (a : SolveArgs R) (h : half_given a = false) :
    ∃ args rest, (python_solve solnp a).trace = Event.solnp args :: rest ∧
      args.rho = a.rho ∧ args.delta = a.delta ∧
      args.maximum_major_iterations = a.max_major_iter ∧
      args.maximum_minor_iterations = a.max_minor_iter := by
  obtain ⟨args, rest, ht, h1, h2, _, h4, h5, _⟩ := python_solve_invokes solnp a h
  exact ⟨args, rest, ht, h1, h2, h4, h5⟩

/-- Witness of the amended C7: the call with non-positive tuning values. -/
theorem tuning_forwarded_unchecked_witness :
    half_given nonpositive_args = false ∧
    ∃ args rest, (python_solve sample_core nonpositive_args).trace = Event.solnp args :: rest ∧
      args.rho = nonpositive_args.rho ∧ args.delta = nonpositive_args.delta ∧
      args.maximum_major_iterations = nonpositive_args.max_major_iter ∧
      args.maximum_minor_iterations = nonpositive_args.max_minor_iter :=
  ⟨by decide, tuning_forwarded_unchecked sample_core nonpositive_args (by decide)⟩

/-- Claim C8, the code at a call with `debug` set: the `SolverResult` of
`solve_simple` carries the log the core filled, but the `Result` that
`python_solve` returns is built from `solve_value`, `optimum` and `callbacks`
alone and is the one returned without `debug`. -/
theorem debug_log_dropped :
    (solve_simple sample_core sample_objective (as_matrix [0, 0]) none none none none true
        1 10 10 1 1).result =
      Except.ok { solve_value := 7, optimum := [5, 6], callbacks := 2,
                  log := some ["major iteration 1"] } ∧
    (python_solve sample_core debug_args).result =
      Except.ok { solve_value := 7, optimum := [5, 6], callbacks := 2 } ∧
    (python_solve sample_core debug_args).result =
      (python_solve sample_core plain_args).result :=
  ⟨rfl, rfl, rfl⟩

/-- Claim C9, the code at a call with only `par_lower_limit` given: the
message of the exception is the text of lines 214-215, which speaks of
equality and inequality constraints; it is not the text of the claim, and the
word "bound" does not occur in it. -/
theorem parameter_bounds_message_text :
    (python_solve sample_core lower_only_args).result =
      Except.error (Err.invalid_argument
        "Bad input: Can not only provide equality or inequaltiy constraints, please provide both.") ∧
    parameter_bounds_message ≠ "cannot supply only one of lower/upper parameter bounds" ∧
    ¬ ("bound".toList <:+: parameter_bounds_message.toList) :=
  ⟨rfl, by decide, by
    set_option maxRecDepth 100000 in
    decide⟩

end pysolver
